import Mathlib

/-
Verification of the popup/redirect auth-event router
(packages/auth-ts/src/core/abstract_popup_redirect_resolver.ts).

The router (class AbstractPopupRedirectResolver) receives AuthEvent values,
classifies them, correlates them with pending operations held by two outcome
handlers (popup and redirect), and dispatches identity-provider tasks.  Pure
routing logic is embedded directly from the source; the two outcome-handler
classes (PopupResultManager, RedirectManager) and the idp task functions live
outside the given sources and are modelled from the specification where a
claim needs them.
-/

namespace FirebaseAuth

/-- The AuthEventType enumeration from model/auth_event. -/
inductive AuthEventType where
  | SIGN_IN_VIA_POPUP
  | SIGN_IN_VIA_REDIRECT
  | LINK_VIA_POPUP
  | LINK_VIA_REDIRECT
  | REAUTH_VIA_POPUP
  | REAUTH_VIA_REDIRECT
  | UNKNOWN
deriving DecidableEq, Repr

/-- An auth error value; only its identity matters to the router, which forwards
errors verbatim. -/
structure AuthError where
  code : String
deriving DecidableEq, Repr

/-- One inbound AuthEvent from the browser transport. -/
structure AuthEvent where
  type : AuthEventType
  eventId : Option String := none
  urlResponse : Option String := none
  sessionId : Option String := none
  postBody : Option String := none
  tenantId : Option String := none
  error : Option AuthError := none
deriving DecidableEq, Repr

/-- A locally cached user session; the router only reads its redirectEventId_
field for correlation. -/
structure User where
  redirectEventId_ : Option String
deriving DecidableEq, Repr

/-- A user credential produced by an idp task; opaque to the router. -/
structure UserCredential where
  uid : Nat
deriving DecidableEq, Repr

/-- Which of the two outcome handlers owns an event
(popupOutcomeHandler or redirectOutcomeHandler). -/
inductive HandlerKind where
  | popup
  | redirect
deriving DecidableEq, Repr

/-- The three idp task variants (idp.signIn, idp.link, idp.reauth). -/
inductive IdpTaskKind where
  | signIn
  | link
  | reauth
deriving DecidableEq, Repr

/-- JavaScript `x || undefined` applied to an optional string field: the empty
string is falsy and collapses to undefined, as does null/undefined itself. -/
def jsOrUndefined : Option String → Option String
  | none => none
  | some s => if s = "" then none else some s

/-- The IdpTaskParams record built by execIdpTask (lines 145-153). -/
structure IdpTaskParams where
  requestUri : Option String
  sessionId : Option String
  tenantId : Option String
  postBody : Option String
  user : Option User
deriving DecidableEq, Repr

/-- The parameter record execIdpTask derives from an event and an optional
correlated user (lines 145-153 of the source). -/
def paramsOfEvent (event : AuthEvent) (user : Option User) : IdpTaskParams :=
  { requestUri := event.urlResponse
    sessionId := event.sessionId
    tenantId := jsOrUndefined event.tenantId
    postBody := jsOrUndefined event.postBody
    user := user }

/-- An observable effect of the router: either a broadcastResult call on one of
the two outcome handlers, or the invocation of an idp task with its parameters. -/
inductive RouterAction where
  | broadcast (handler : HandlerKind) (cred : Option UserCredential) (error : Option AuthError)
  | execTask (task : IdpTaskKind) (params : IdpTaskParams)
deriving DecidableEq, Repr

/-- getOutcomeHandler (lines 123-138): popup event types map to the popup
handler, redirect types to the redirect handler, and the default branch throws
an internal error, modelled as the error side of Except. -/
def getOutcomeHandler : AuthEventType → Except AuthError HandlerKind
  | .SIGN_IN_VIA_POPUP => .ok .popup
  | .LINK_VIA_POPUP => .ok .popup
  | .REAUTH_VIA_POPUP => .ok .popup
  | .SIGN_IN_VIA_REDIRECT => .ok .redirect
  | .LINK_VIA_REDIRECT => .ok .redirect
  | .REAUTH_VIA_REDIRECT => .ok .redirect
  | .UNKNOWN => .error { code := "auth/internal-error" }

/-- A Pending Operation held by the popup outcome handler, keyed by the eventId
supplied when the popup flow was started.  The opId tag gives each operation an
identity so that settlement can be tracked. -/
structure PopupPendingOp where
  opId : Nat
  eventId : Option String
deriving DecidableEq, Repr

/-- Modelled from the spec: the popup Outcome Handler (class PopupResultManager,
not among the given sources).  It owns the registry of popup Pending
Operations; an operation is present exactly while it is unsettled, since a
Pending Operation is destroyed when it is settled. -/
structure PopupResultManager where
  pending : List PopupPendingOp
deriving DecidableEq, Repr

/-- Modelled from the spec: isMatchingEvent(eventId) is true iff a Pending
Operation with that eventId currently exists and is unsettled. -/
def PopupResultManager.isMatchingEvent (m : PopupResultManager)
    (eventId : Option String) : Bool :=
  m.pending.any (fun p => p.eventId == eventId)

/-- userForEvent (lines 117-121): the first locally cached user session whose
redirectEventId_ equals the given event id. -/
def userForEvent (users : List User) (id : Option String) : Option User :=
  users.find? (fun u => u.redirectEventId_ == id)

/-- onEvent (lines 52-85): the single-pass event router.  Inputs are the popup
outcome-handler state (consulted through isMatchingEvent), the locally cached
user sessions (read through userForEvent), and the event.  The result collects
the observable actions the pass performs together with the returned boolean;
the Except layer carries a thrown internal error, which the error
short-circuit branch could raise through getOutcomeHandler. -/
def onEvent (popupHandler : PopupResultManager) (users : List User)
    (event : AuthEvent) : Except AuthError (List RouterAction × Bool) :=
  if event.error.isSome ∧ event.type ≠ AuthEventType.UNKNOWN then
    match getOutcomeHandler event.type with
    | .ok h => .ok ([.broadcast h none event.error], true)
    | .error e => .error e
  else
    let potentialUser := userForEvent users event.eventId
    let actions : List RouterAction :=
      match event.type with
      | .SIGN_IN_VIA_POPUP =>
        if popupHandler.isMatchingEvent event.eventId then
          [.execTask .signIn (paramsOfEvent event none)]
        else []
      | .SIGN_IN_VIA_REDIRECT =>
        [.execTask .signIn (paramsOfEvent event none)]
      | .LINK_VIA_POPUP =>
        match potentialUser with
        | some u => [.execTask .link (paramsOfEvent event (some u))]
        | none => []
      | .LINK_VIA_REDIRECT =>
        match potentialUser with
        | some u => [.execTask .link (paramsOfEvent event (some u))]
        | none => []
      | .REAUTH_VIA_POPUP =>
        match potentialUser with
        | some u => [.execTask .reauth (paramsOfEvent event (some u))]
        | none => []
      | .REAUTH_VIA_REDIRECT =>
        match potentialUser with
        | some u => [.execTask .reauth (paramsOfEvent event (some u))]
        | none => []
      | .UNKNOWN => []
    .ok (actions, true)

/-- execIdpTask (lines 140-163): looks up the owning outcome handler (outside
the try block, so a thrown internal error escapes through the Except layer),
runs the task, and broadcasts the credential on success or the caught error on
failure.  The task itself is modelled by its outcome, an Except value: ok for
a returned credential, error for a thrown exception. -/
def execIdpTask (event : AuthEvent)
    (taskOutcome : Except AuthError UserCredential) :
    Except AuthError RouterAction :=
  match getOutcomeHandler event.type with
  | .error e => .error e
  | .ok outcomeHandler =>
    match taskOutcome with
    | .ok cred => .ok (.broadcast outcomeHandler (some cred) none)
    | .error e => .ok (.broadcast outcomeHandler none (some e))

/-- How a broadcastResult call settles a promise: resolve with a (possibly
null) credential, or reject with an error. -/
inductive SettleOutcome where
  | resolve (cred : Option UserCredential)
  | reject (error : AuthError)
deriving DecidableEq, Repr

/-- A settlement record: which Pending Operation was settled and how. -/
structure Settlement where
  op : PopupPendingOp
  outcome : SettleOutcome
deriving DecidableEq, Repr

/-- Remove the first Pending Operation whose eventId matches, returning the
remaining registry and the removed operation, if any. -/
def settleFirst (eventId : Option String) :
    List PopupPendingOp → List PopupPendingOp × Option PopupPendingOp
  | [] => ([], none)
  | p :: rest =>
    if p.eventId == eventId then (rest, some p)
    else
      let r := settleFirst eventId rest
      (p :: r.1, r.2)

/-- Modelled from the spec: PopupResultManager.broadcastResult settles the one
Pending Operation whose eventId matches the event being processed, removing it
from the registry (a Pending Operation is destroyed exactly when it is
settled); with no match, nothing is settled and the registry is unchanged. -/
def PopupResultManager.broadcastResult (m : PopupResultManager)
    (eventId : Option String) (outcome : SettleOutcome) :
    PopupResultManager × Option Settlement :=
  match settleFirst eventId m.pending with
  | (rest, some p) => ({ pending := rest }, some { op := p, outcome := outcome })
  | (_, none) => (m, none)

/-- Modelled from the spec: the redirect Outcome Handler (class RedirectManager,
not among the given sources).  At most one redirect Pending Operation exists at
a time; the state records the identity of its promise, if one is registered. -/
structure RedirectManager where
  redirectPromise : Option Nat
deriving DecidableEq, Repr

/-- Modelled from the spec: getRedirectPromiseOrInit(initializer) returns the
existing pending or settled result when one exists, otherwise registers a new
Pending Operation (with fresh promise identity) and runs the initializer once.
The result is the new handler state, the promise identity handed to the
caller, and whether the initializer ran during this call. -/
def RedirectManager.getRedirectPromiseOrInit (m : RedirectManager)
    (fresh : Nat) : RedirectManager × Nat × Bool :=
  match m.redirectPromise with
  | some p => (m, p, false)
  | none => ({ redirectPromise := some fresh }, fresh, true)

/-- getRedirectResult (lines 107-115): delegates to getRedirectPromiseOrInit on
the redirect outcome handler, passing the initialization-kickoff
initializer. -/
def getRedirectResult (m : RedirectManager) (fresh : Nat) :
    RedirectManager × Nat × Bool :=
  m.getRedirectPromiseOrInit fresh

/-- Observable steps of a flow startup, used to express the ordering between
initialization and the external action. -/
inductive FlowStep where
  | initStart
  | initComplete
  | openPopup
  | redirectProceed
deriving DecidableEq, Repr

/-- The opener callback processPopup passes to getNewPendingPromise
(lines 96-104): when not initialized it awaits initializeAndWait, so both the
start and the completion of initialization are sequenced before openPopup. -/
def processPopupOpenerTrace (ready : Bool) : List FlowStep :=
  (if ready then [] else [.initStart, .initComplete]) ++
    [.openPopup]

/-- The initializer getRedirectResult passes to getRedirectPromiseOrInit
(lines 110-114): when not initialized it calls initializeAndWait without
awaiting it inside a synchronous closure, so only the start of initialization
is sequenced before the redirect flow proceeds; its completion is not. -/
def getRedirectResultTrace (ready : Bool) : List FlowStep :=
  (if ready then [] else [.initStart]) ++ [.redirectProceed]

/-! Theorems about the claims. -/

/-- Sample error used by concrete witnesses. -/
def sampleErr : AuthError := { code := "auth/network-request-failed" }

/-- C6: for every AuthEvent, onEvent returns true — matched, unmatched,
UNKNOWN-typed, and error-carrying events all yield Except.ok with boolean true,
never raising an error to the caller. -/
theorem onEvent_always_returns_true (m : PopupResultManager) (users : List User)
    (event : AuthEvent) :
    ∃ actions, onEvent m users event = Except.ok (actions, true) := by
  unfold onEvent
  by_cases he : event.error.isSome ∧ event.type ≠ AuthEventType.UNKNOWN
  · rcases he with ⟨h1, h2⟩
    rw [if_pos ⟨h1, h2⟩]
    cases htype : event.type <;>
      first | exact absurd htype h2 | simp [getOutcomeHandler]
  · rw [if_neg he]
    exact ⟨_, rfl⟩

/-- C1: for every AuthEvent with event.error set: if event.type is not UNKNOWN,
onEvent performs exactly one action, broadcastResult(null, event.error) on the
Outcome Handler owning event.type (so no idp task runs), and returns true; if
event.type is UNKNOWN, onEvent performs no action (no Outcome Handler touched,
the event dropped) and still returns true. -/
theorem onEvent_error_short_circuit (m : PopupResultManager) (users : List User)
    (event : AuthEvent) (err : AuthError) (herr : event.error = some err) :
    (event.type ≠ AuthEventType.UNKNOWN →
      ∃ hk, getOutcomeHandler event.type = Except.ok hk ∧
        onEvent m users event =
          Except.ok ([RouterAction.broadcast hk none (some err)], true)) ∧
    (event.type = AuthEventType.UNKNOWN →
      onEvent m users event = Except.ok ([], true)) := by
  constructor
  · intro hne
    have hcond : event.error.isSome ∧ event.type ≠ AuthEventType.UNKNOWN :=
      ⟨by simp [herr], hne⟩
    unfold onEvent
    rw [if_pos hcond]
    cases htype : event.type <;>
      first | exact absurd htype hne | simp [getOutcomeHandler, herr]
  · intro hu
    have hcond : ¬ (event.error.isSome ∧ event.type ≠ AuthEventType.UNKNOWN) := by
      intro hc
      exact hc.2 hu
    unfold onEvent
    rw [if_neg hcond, hu]

/-- Witness for C1 at a concrete input: a REAUTH_VIA_POPUP error event on an
empty popup registry broadcasts the error to the popup handler, and an UNKNOWN
error event performs no action. -/
theorem onEvent_error_short_circuit_witness :
    (({ type := AuthEventType.REAUTH_VIA_POPUP, eventId := some "abc",
        error := some sampleErr } : AuthEvent).error = some sampleErr) ∧
    ((AuthEventType.REAUTH_VIA_POPUP ≠ AuthEventType.UNKNOWN →
      ∃ hk, getOutcomeHandler AuthEventType.REAUTH_VIA_POPUP = Except.ok hk ∧
        onEvent { pending := [] } []
            { type := AuthEventType.REAUTH_VIA_POPUP, eventId := some "abc",
              error := some sampleErr } =
          Except.ok ([RouterAction.broadcast hk none (some sampleErr)], true)) ∧
    (AuthEventType.REAUTH_VIA_POPUP = AuthEventType.UNKNOWN →
      onEvent { pending := [] } []
          { type := AuthEventType.REAUTH_VIA_POPUP, eventId := some "abc",
            error := some sampleErr } = Except.ok ([], true))) :=
  ⟨rfl, onEvent_error_short_circuit { pending := [] } []
      { type := AuthEventType.REAUTH_VIA_POPUP, eventId := some "abc",
        error := some sampleErr } sampleErr rfl⟩

/-- C3: for every error-free event of type SIGN_IN_VIA_REDIRECT, onEvent always
executes the sign-in idp task — for every popup-handler state (so regardless of
any pending, unrelated popup operation) and every user-session list, with no
precondition on any pending operation. -/
theorem onEvent_sign_in_via_redirect (m : PopupResultManager) (users : List User)
    (event : AuthEvent) (herr : event.error = none)
    (htype : event.type = AuthEventType.SIGN_IN_VIA_REDIRECT) :
    onEvent m users event =
      Except.ok ([RouterAction.execTask IdpTaskKind.signIn
        (paramsOfEvent event none)], true) := by
  have hcond : ¬ (event.error.isSome ∧ event.type ≠ AuthEventType.UNKNOWN) := by
    simp [herr]
  unfold onEvent
  rw [if_neg hcond, htype]

/-- Witness for C3 at a concrete input: a redirect sign-in event is dispatched
even while an unrelated popup operation is pending. -/
theorem onEvent_sign_in_via_redirect_witness :
    (({ type := AuthEventType.SIGN_IN_VIA_REDIRECT, eventId := some "r1",
        urlResponse := some "https://cb", sessionId := some "s1" } :
          AuthEvent).error = none) ∧
    onEvent { pending := [{ opId := 0, eventId := some "popup-7" }] } []
        { type := AuthEventType.SIGN_IN_VIA_REDIRECT, eventId := some "r1",
          urlResponse := some "https://cb", sessionId := some "s1" } =
      Except.ok ([RouterAction.execTask IdpTaskKind.signIn
        (paramsOfEvent
          { type := AuthEventType.SIGN_IN_VIA_REDIRECT, eventId := some "r1",
            urlResponse := some "https://cb", sessionId := some "s1" } none)],
        true) :=
  ⟨rfl, onEvent_sign_in_via_redirect
    { pending := [{ opId := 0, eventId := some "popup-7" }] } []
    { type := AuthEventType.SIGN_IN_VIA_REDIRECT, eventId := some "r1",
      urlResponse := some "https://cb", sessionId := some "s1" } rfl rfl⟩

/-- C2: for every error-free SIGN_IN_VIA_POPUP event, the sign-in task runs iff
the popup handler reports a matching unsettled Pending Operation for the
eventId; when it matches, the router's actions coincide with those of the same
event retyped SIGN_IN_VIA_REDIRECT (the fallthrough shares the task
invocation); when it does not match, no task runs. -/
theorem onEvent_sign_in_via_popup (m : PopupResultManager) (users : List User)
    (event : AuthEvent) (herr : event.error = none)
    (htype : event.type = AuthEventType.SIGN_IN_VIA_POPUP) :
    onEvent m users event =
      Except.ok ((if m.isMatchingEvent event.eventId then
          [RouterAction.execTask IdpTaskKind.signIn (paramsOfEvent event none)]
        else []), true) ∧
    (m.isMatchingEvent event.eventId = true →
      onEvent m users event =
        onEvent m users { event with type := AuthEventType.SIGN_IN_VIA_REDIRECT }) := by
  have hcond : ¬ (event.error.isSome ∧ event.type ≠ AuthEventType.UNKNOWN) := by
    simp [herr]
  constructor
  · unfold onEvent
    rw [if_neg hcond, htype]
  · intro hmatch
    have hconfl : ¬ ((({ event with type := AuthEventType.SIGN_IN_VIA_REDIRECT } :
        AuthEvent).error).isSome ∧
        ({ event with type := AuthEventType.SIGN_IN_VIA_REDIRECT } :
          AuthEvent).type ≠ AuthEventType.UNKNOWN) := by
      simp [herr]
    unfold onEvent
    rw [if_neg hcond, if_neg hconfl, htype]
    simp [hmatch, paramsOfEvent]

/-- Witness for C2 at a concrete input: with a matching pending popup operation
the task runs and equals the redirect-typed dispatch; the hypotheses are
discharged on a concrete event. -/
theorem onEvent_sign_in_via_popup_witness :
    (({ type := AuthEventType.SIGN_IN_VIA_POPUP, eventId := some "p1",
        urlResponse := some "https://cb", sessionId := some "s1" } :
          AuthEvent).error = none) ∧
    (onEvent { pending := [{ opId := 3, eventId := some "p1" }] } []
        { type := AuthEventType.SIGN_IN_VIA_POPUP, eventId := some "p1",
          urlResponse := some "https://cb", sessionId := some "s1" } =
      Except.ok ((if PopupResultManager.isMatchingEvent
            { pending := [{ opId := 3, eventId := some "p1" }] } (some "p1") then
          [RouterAction.execTask IdpTaskKind.signIn
            (paramsOfEvent
              { type := AuthEventType.SIGN_IN_VIA_POPUP, eventId := some "p1",
                urlResponse := some "https://cb", sessionId := some "s1" } none)]
        else []), true) ∧
    (PopupResultManager.isMatchingEvent
        { pending := [{ opId := 3, eventId := some "p1" }] } (some "p1") = true →
      onEvent { pending := [{ opId := 3, eventId := some "p1" }] } []
          { type := AuthEventType.SIGN_IN_VIA_POPUP, eventId := some "p1",
            urlResponse := some "https://cb", sessionId := some "s1" } =
        onEvent { pending := [{ opId := 3, eventId := some "p1" }] } []
          { type := AuthEventType.SIGN_IN_VIA_REDIRECT, eventId := some "p1",
            urlResponse := some "https://cb", sessionId := some "s1" })) :=
  ⟨rfl, onEvent_sign_in_via_popup
    { pending := [{ opId := 3, eventId := some "p1" }] } []
    { type := AuthEventType.SIGN_IN_VIA_POPUP, eventId := some "p1",
      urlResponse := some "https://cb", sessionId := some "s1" } rfl rfl⟩

/-- C4: for every error-free LINK_VIA_POPUP, LINK_VIA_REDIRECT,
REAUTH_VIA_POPUP or REAUTH_VIA_REDIRECT event, onEvent executes the link
(respectively reauth) task applied to the potentialUser exactly when some
cached session's redirectEventId_ equals event.eventId; otherwise no task runs
and onEvent still returns true. -/
theorem onEvent_link_reauth (m : PopupResultManager) (users : List User)
    (event : AuthEvent) (task : IdpTaskKind) (herr : event.error = none)
    (htype :
      ((event.type = AuthEventType.LINK_VIA_POPUP ∨
        event.type = AuthEventType.LINK_VIA_REDIRECT) ∧ task = IdpTaskKind.link) ∨
      ((event.type = AuthEventType.REAUTH_VIA_POPUP ∨
        event.type = AuthEventType.REAUTH_VIA_REDIRECT) ∧ task = IdpTaskKind.reauth)) :
    onEvent m users event =
      Except.ok ((match userForEvent users event.eventId with
        | some u => [RouterAction.execTask task (paramsOfEvent event (some u))]
        | none => []), true) ∧
    ((userForEvent users event.eventId).isSome ↔
      ∃ u ∈ users, u.redirectEventId_ = event.eventId) := by
  have hcond : ¬ (event.error.isSome ∧ event.type ≠ AuthEventType.UNKNOWN) := by
    simp [herr]
  constructor
  · unfold onEvent
    rw [if_neg hcond]
    rcases htype with ⟨ht | ht, htask⟩ | ⟨ht | ht, htask⟩ <;> rw [ht, htask]
  · simp [userForEvent, List.find?_isSome]

/-- Witness for C4 at a concrete input: a LINK_VIA_POPUP event whose eventId
matches one cached session's redirectEventId_ runs the link task on that
session. -/
theorem onEvent_link_reauth_witness :
    (({ type := AuthEventType.LINK_VIA_POPUP, eventId := some "L1" } :
        AuthEvent).error = none) ∧
    (((AuthEventType.LINK_VIA_POPUP = AuthEventType.LINK_VIA_POPUP ∨
        AuthEventType.LINK_VIA_POPUP = AuthEventType.LINK_VIA_REDIRECT) ∧
        IdpTaskKind.link = IdpTaskKind.link) ∨
      ((AuthEventType.LINK_VIA_POPUP = AuthEventType.REAUTH_VIA_POPUP ∨
        AuthEventType.LINK_VIA_POPUP = AuthEventType.REAUTH_VIA_REDIRECT) ∧
        IdpTaskKind.link = IdpTaskKind.reauth)) ∧
    (onEvent { pending := [] }
        [{ redirectEventId_ := some "other" }, { redirectEventId_ := some "L1" }]
        { type := AuthEventType.LINK_VIA_POPUP, eventId := some "L1" } =
      Except.ok ((match userForEvent
            [{ redirectEventId_ := some "other" }, { redirectEventId_ := some "L1" }]
            (some "L1") with
        | some u => [RouterAction.execTask IdpTaskKind.link
            (paramsOfEvent
              { type := AuthEventType.LINK_VIA_POPUP, eventId := some "L1" }
              (some u))]
        | none => []), true) ∧
    ((userForEvent
        [{ redirectEventId_ := some "other" }, { redirectEventId_ := some "L1" }]
        (some "L1")).isSome ↔
      ∃ u ∈ ([{ redirectEventId_ := some "other" },
          { redirectEventId_ := some "L1" }] : List User),
        u.redirectEventId_ = some "L1")) :=
  ⟨rfl, Or.inl ⟨Or.inl rfl, rfl⟩,
    onEvent_link_reauth { pending := [] }
      [{ redirectEventId_ := some "other" }, { redirectEventId_ := some "L1" }]
      { type := AuthEventType.LINK_VIA_POPUP, eventId := some "L1" }
      IdpTaskKind.link rfl (Or.inl ⟨Or.inl rfl, rfl⟩)⟩

/-- C5: execIdpTask catches every task failure at its boundary and forwards it
as broadcastResult(null, error) to the Outcome Handler owning the event's
type; a successful credential is forwarded as broadcastResult(credential); in
either case execIdpTask returns ok, so no task error escapes past the
router. -/
theorem execIdpTask_funnels_outcome (event : AuthEvent)
    (taskOutcome : Except AuthError UserCredential)
    (hne : event.type ≠ AuthEventType.UNKNOWN) :
    ∃ hk, getOutcomeHandler event.type = Except.ok hk ∧
      execIdpTask event taskOutcome = Except.ok (match taskOutcome with
        | .ok cred => RouterAction.broadcast hk (some cred) none
        | .error e => RouterAction.broadcast hk none (some e)) := by
  unfold execIdpTask
  cases htype : event.type <;>
    first
      | exact absurd htype hne
      | (cases taskOutcome <;> exact ⟨_, rfl, rfl⟩)

/-- Witness for C5 at a concrete input: a failing task outcome for a
LINK_VIA_REDIRECT event is funneled to the redirect handler as an error
broadcast. -/
theorem execIdpTask_funnels_outcome_witness :
    (AuthEventType.LINK_VIA_REDIRECT ≠ AuthEventType.UNKNOWN) ∧
    ∃ hk, getOutcomeHandler AuthEventType.LINK_VIA_REDIRECT = Except.ok hk ∧
      execIdpTask { type := AuthEventType.LINK_VIA_REDIRECT }
          (Except.error sampleErr) =
        Except.ok (match (Except.error sampleErr :
              Except AuthError UserCredential) with
          | .ok cred => RouterAction.broadcast hk (some cred) none
          | .error e => RouterAction.broadcast hk none (some e)) :=
  ⟨by decide, execIdpTask_funnels_outcome
    { type := AuthEventType.LINK_VIA_REDIRECT } (Except.error sampleErr)
    (by decide)⟩

/-- C10: for every error event whose type is not UNKNOWN, the error broadcast
happens for every popup-handler state and user list — in particular for the
empty registry, where isMatchingEvent is false for every eventId — so no
matching check guards the error path; and for error-free events of any type
other than SIGN_IN_VIA_POPUP, the result never depends on the popup-handler
state, so the stale-event matching filter is consulted only on the non-error
SIGN_IN_VIA_POPUP path. -/
theorem onEvent_error_path_skips_matching (event : AuthEvent) (err : AuthError)
    (herr : event.error = some err) (hne : event.type ≠ AuthEventType.UNKNOWN) :
    (∃ hk, getOutcomeHandler event.type = Except.ok hk ∧
      ∀ (m : PopupResultManager) (users : List User),
        onEvent m users event =
          Except.ok ([RouterAction.broadcast hk none (some err)], true)) ∧
    PopupResultManager.isMatchingEvent { pending := [] } event.eventId = false ∧
    (∀ (ev : AuthEvent), ev.error = none →
      ev.type ≠ AuthEventType.SIGN_IN_VIA_POPUP →
      ∀ (m m' : PopupResultManager) (users : List User),
        onEvent m users ev = onEvent m' users ev) := by
  refine ⟨?_, rfl, ?_⟩
  · have hcond : event.error.isSome ∧ event.type ≠ AuthEventType.UNKNOWN :=
      ⟨by simp [herr], hne⟩
    cases htype : event.type <;>
      first
        | exact absurd htype hne
        | exact ⟨_, rfl, fun m users => by
            unfold onEvent
            rw [if_pos hcond, htype, herr]
            rfl⟩
  · intro ev hev hnp m m' users
    have hcond : ¬ (ev.error.isSome ∧ ev.type ≠ AuthEventType.UNKNOWN) := by
      simp [hev]
    unfold onEvent
    rw [if_neg hcond, if_neg hcond]
    cases htype : ev.type <;> first | exact absurd htype hnp | rfl

/-- Witness for C10 at a concrete input: a SIGN_IN_VIA_POPUP error event with
an eventId matching no pending operation is still broadcast. -/
theorem onEvent_error_path_skips_matching_witness :
    (({ type := AuthEventType.SIGN_IN_VIA_POPUP, eventId := some "stale",
        error := some sampleErr } : AuthEvent).error = some sampleErr) ∧
    (AuthEventType.SIGN_IN_VIA_POPUP ≠ AuthEventType.UNKNOWN) ∧
    ((∃ hk, getOutcomeHandler AuthEventType.SIGN_IN_VIA_POPUP = Except.ok hk ∧
      ∀ (m : PopupResultManager) (users : List User),
        onEvent m users
            { type := AuthEventType.SIGN_IN_VIA_POPUP, eventId := some "stale",
              error := some sampleErr } =
          Except.ok ([RouterAction.broadcast hk none (some sampleErr)], true)) ∧
    PopupResultManager.isMatchingEvent { pending := [] } (some "stale") = false ∧
    (∀ (ev : AuthEvent), ev.error = none →
      ev.type ≠ AuthEventType.SIGN_IN_VIA_POPUP →
      ∀ (m m' : PopupResultManager) (users : List User),
        onEvent m users ev = onEvent m' users ev)) :=
  ⟨rfl, by decide, onEvent_error_path_skips_matching
    { type := AuthEventType.SIGN_IN_VIA_POPUP, eventId := some "stale",
      error := some sampleErr } sampleErr rfl (by decide)⟩

/-- With no matching Pending Operation in the registry, settleFirst removes
nothing. -/
theorem settleFirst_eq_of_no_match (id : Option String)
    (l : List PopupPendingOp) (h : ∀ q ∈ l, (q.eventId == id) = false) :
    settleFirst id l = (l, none) := by
  induction l with
  | nil => rfl
  | cons p rest ih =>
    have hp := h p (List.mem_cons_self p rest)
    simp [settleFirst, hp, ih (fun q hq => h q (List.mem_cons_of_mem p hq))]

/-- The Pending Operation removed by settleFirst carries the matched
eventId. -/
theorem settleFirst_hit_matches (id : Option String) (l : List PopupPendingOp)
    (p : PopupPendingOp) (hp : (settleFirst id l).2 = some p) :
    (p.eventId == id) = true := by
  induction l with
  | nil => simp [settleFirst] at hp
  | cons a rest ih =>
    by_cases ha : (a.eventId == id) = true
    · simp [settleFirst, ha] at hp
      rw [← hp]
      exact ha
    · simp [settleFirst, ha] at hp
      exact ih hp

/-- When the registry's eventIds are pairwise distinct, the registry left by a
successful settleFirst contains no further match for the settled eventId. -/
theorem settleFirst_removes_only_match (id : Option String)
    (l : List PopupPendingOp)
    (hnd : (l.map (fun p => p.eventId)).Nodup) (p : PopupPendingOp)
    (hp : (settleFirst id l).2 = some p) :
    ∀ q ∈ (settleFirst id l).1, (q.eventId == id) = false := by
  induction l with
  | nil => simp [settleFirst] at hp
  | cons a rest ih =>
    rw [List.map_cons, List.nodup_cons] at hnd
    by_cases ha : (a.eventId == id) = true
    · have haid : a.eventId = id := by
        exact beq_iff_eq.mp ha
      simp only [settleFirst, ha, if_pos] at hp ⊢
      intro q hq
      by_contra hqid
      have hqeq : q.eventId = id := by
        rcases Bool.eq_false_or_eq_true (q.eventId == id) with ht | hf
        · exact beq_iff_eq.mp ht
        · exact absurd hf hqid
      exact hnd.1 (haid ▸ hqeq ▸ List.mem_map_of_mem (fun r => r.eventId) hq)
    · simp only [settleFirst, ha, if_neg, Bool.not_eq_true] at hp ⊢
      intro q hq
      rcases List.mem_cons.mp hq with hqa | hqrest
      · rw [hqa]
        exact Bool.not_eq_true _ ▸ ha
      · exact ih hnd.2 hp q hqrest

/-- C9: every popup Pending Operation settles at most once — given pairwise
distinct pending eventIds (the spec's precondition on concurrent popups), a
settlement returned by broadcastResult is removed from the registry, and a
subsequent broadcastResult for the same eventId leaves the handler unchanged
and settles nothing, so the already-settled promise is untouched. -/
theorem broadcastResult_settles_at_most_once (m : PopupResultManager)
    (id : Option String) (o o' : SettleOutcome)
    (hnd : (m.pending.map (fun p => p.eventId)).Nodup) :
    (∀ s, (m.broadcastResult id o).2 = some s →
      s.op ∉ (m.broadcastResult id o).1.pending) ∧
    (m.broadcastResult id o).1.broadcastResult id o' =
      ((m.broadcastResult id o).1, none) := by
  unfold PopupResultManager.broadcastResult
  cases hsf : settleFirst id m.pending with
  | mk rest hit =>
    cases hit with
    | some p =>
      have hp2 : (settleFirst id m.pending).2 = some p := by rw [hsf]
      have hmatch : (p.eventId == id) = true :=
        settleFirst_hit_matches id m.pending p hp2
      have hnomatch : ∀ q ∈ rest, (q.eventId == id) = false := by
        have := settleFirst_removes_only_match id m.pending hnd p hp2
        rw [hsf] at this
        exact this
      constructor
      · intro s hs
        simp only [Option.some.injEq] at hs
        rw [← hs]
        intro hmem
        have := hnomatch p hmem
        rw [hmatch] at this
        exact Bool.true_eq_false.mp this
      · have hrest : settleFirst id rest = (rest, none) :=
          settleFirst_eq_of_no_match id rest hnomatch
        simp [hrest]
    | none =>
      constructor
      · intro s hs
        simp at hs
      · simp [hsf]

/-- Witness for C9 at a concrete input: a registry with two distinct pending
popup operations settles the matching one exactly once. -/
theorem broadcastResult_settles_at_most_once_witness :
    ((PopupResultManager.pending
        { pending := [{ opId := 0, eventId := some "a" },
                      { opId := 1, eventId := some "b" }] }).map
      (fun p => p.eventId)).Nodup ∧
    ((∀ s, (PopupResultManager.broadcastResult
        { pending := [{ opId := 0, eventId := some "a" },
                      { opId := 1, eventId := some "b" }] } (some "a")
        (SettleOutcome.resolve none)).2 = some s →
      s.op ∉ (PopupResultManager.broadcastResult
        { pending := [{ opId := 0, eventId := some "a" },
                      { opId := 1, eventId := some "b" }] } (some "a")
        (SettleOutcome.resolve none)).1.pending) ∧
    (PopupResultManager.broadcastResult
        { pending := [{ opId := 0, eventId := some "a" },
                      { opId := 1, eventId := some "b" }] } (some "a")
        (SettleOutcome.resolve none)).1.broadcastResult (some "a")
        (SettleOutcome.reject sampleErr) =
      ((PopupResultManager.broadcastResult
        { pending := [{ opId := 0, eventId := some "a" },
                      { opId := 1, eventId := some "b" }] } (some "a")
        (SettleOutcome.resolve none)).1, none)) :=
  ⟨by simp, broadcastResult_settles_at_most_once
    { pending := [{ opId := 0, eventId := some "a" },
                  { opId := 1, eventId := some "b" }] }
    (some "a") (SettleOutcome.resolve none) (SettleOutcome.reject sampleErr)
    (by simp)⟩

/-- C8: a second getRedirectResult call while the first redirect Pending
Operation is registered returns the identical promise, leaves the handler
state unchanged (no second Pending Operation), and does not run the
initializer again — the initializer runs at most once per pending lifetime. -/
theorem getRedirectResult_returns_same_pending_promise (m : RedirectManager)
    (f1 f2 : Nat) :
    (getRedirectResult (getRedirectResult m f1).1 f2).1 =
      (getRedirectResult m f1).1 ∧
    (getRedirectResult (getRedirectResult m f1).1 f2).2.1 =
      (getRedirectResult m f1).2.1 ∧
    (getRedirectResult (getRedirectResult m f1).1 f2).2.2 = false := by
  cases hm : m.redirectPromise <;>
    simp [getRedirectResult, RedirectManager.getRedirectPromiseOrInit, hm]

/-- C7: the opener that processPopup registers awaits initialization — when
not initialized, initializeComplete precedes openPopup in its trace — but the
initializer getRedirectResult passes does not: the redirect flow proceeds with
only initializeStart sequenced before it, and initializeComplete is absent
from the trace, contradicting the claim for the redirect path. -/
theorem redirect_does_not_await_init :
    processPopupOpenerTrace false =
      [FlowStep.initStart, FlowStep.initComplete,
        FlowStep.openPopup] ∧
    getRedirectResultTrace false =
      [FlowStep.initStart, FlowStep.redirectProceed] ∧
    FlowStep.initComplete ∉ getRedirectResultTrace false := by
  refine ⟨rfl, rfl, ?_⟩
  decide

end FirebaseAuth
